import Mathlib

/-!
Shallow embedding of the access-control core of the reactst repository:
the Supabase row-level-security policy set in `supabase/rls.sql` and the
client-side helpers in `src/App.jsx` (profile provisioning, role lookup,
category deletion, order normalization).

Identities (`auth.uid()`) are modelled as `Nat`; the caller of a request is
`Option Nat`, with `none` for an anonymous (unauthenticated) caller, since in
SQL `auth.uid()` is NULL for anonymous callers and every comparison with NULL
is not-true. Table rows are the `Row` sum type, carrying exactly the columns
the policies consult (plus schema columns for fidelity). Each SQL
`create policy` statement becomes one entry of the `policies` list; the RLS
evaluator `can` allows an operation iff some policy for that
resource/command grants it, which is PostgreSQL's semantics for permissive
policies with row-level security enabled.
-/

namespace Reactst

/-- A row of `public.profiles`: `id uuid primary key`, `email text unique`
(nullable), `role text not null default 'user'`. -/
structure Profile where
  id : Nat
  email : Option String
  role : String
deriving DecidableEq, Repr

/-- The persisted state the policies consult: the `public.profiles` table. -/
structure DB where
  profiles : List Profile
deriving DecidableEq, Repr

/-- `public.is_admin()` from rls.sql lines 34-47:
`select exists (select 1 from public.profiles p where p.id = auth.uid() and
p.role = 'admin')`. It runs as `security definer` (privileged read bypassing
the profiles select policy) and is `stable` (one read per evaluation, no
caching across calls). When `auth.uid()` is NULL the comparison `p.id =
auth.uid()` is never true, so the exists is false. The same
`exists (...)` subquery is inlined verbatim in the products, orders and
storage policies, so they share this definition. -/
def is_admin (db : DB) (uid : Option Nat) : Bool :=
  match uid with
  | none => false
  | some u => db.profiles.any fun p => decide (p.id = u) && decide (p.role = "admin")

/-- The resources governed by the rls.sql policy set; `storageObject` is
`storage.objects` (the product-images bucket lives there). -/
inductive Resource where
  | profile
  | product
  | category
  | order
  | storageObject
deriving DecidableEq, Repr

/-- The four SQL row-level commands a policy can be `for`. -/
inductive Cmd where
  | select
  | insert
  | update
  | delete
deriving DecidableEq, Repr

/-- The `to` clause of a policy: `to authenticated` applies only to logged-in
callers, `to public` also to anonymous ones. -/
inductive PolicyRole where
  | authenticated
  | publicRole
deriving DecidableEq, Repr

/-- A table row, carrying the columns the policies read. `profileRow` is a
`public.profiles` row, `orderRow` a `public.orders` row (`user_id` is the
owning identity), `storageRow` a `storage.objects` row with its `bucket_id`. -/
inductive Row where
  | profileRow (id : Nat) (email : Option String) (role : String)
  | productRow (id : Nat) (name : String) (category : String) (price : Int)
  | categoryRow (id : Nat) (name : String)
  | orderRow (id : Nat) (user_id : Nat) (status : String) (total : Int) (items_count : Int)
  | storageRow (bucket_id : String) (name : String)
deriving DecidableEq, Repr

/-- The `bucket_id` of a storage row, `none` for rows of other tables. -/
def bucketOf : Row → Option String
  | .storageRow b _ => some b
  | _ => none

/-- A predicate that is identically true: stands for an absent `using`
clause (insert policies) or absent `with check` clause (select/delete
policies), which PostgreSQL treats as true. -/
def truePred : DB → Option Nat → Row → Bool := fun _ _ _ => true

/-- `profiles_select_self_or_admin` using clause (rls.sql 51-56):
`id = auth.uid() or public.is_admin()`. -/
def profiles_select_self_or_admin (db : DB) (uid : Option Nat) (row : Row) : Bool :=
  match row with
  | .profileRow i _ _ => decide (some i = uid) || is_admin db uid
  | _ => false

/-- `profiles_insert_self_user_or_admin` with-check clause (rls.sql 58-66):
`(id = auth.uid() and role = 'user') or public.is_admin()`. -/
def profiles_insert_self_user_or_admin (db : DB) (uid : Option Nat) (row : Row) : Bool :=
  match row with
  | .profileRow i _ r => (decide (some i = uid) && decide (r = "user")) || is_admin db uid
  | _ => false

/-- `profiles_update_self_user_or_admin` using clause (rls.sql 73):
`id = auth.uid() or public.is_admin()`, evaluated on the existing row. -/
def profiles_update_self_user_or_admin_using (db : DB) (uid : Option Nat) (row : Row) : Bool :=
  match row with
  | .profileRow i _ _ => decide (some i = uid) || is_admin db uid
  | _ => false

/-- `profiles_update_self_user_or_admin` with-check clause (rls.sql 74-77):
`(id = auth.uid() and role = 'user') or public.is_admin()`, evaluated on the
submitted (new) row — this is where the submitted row's `role` is inspected. -/
def profiles_update_self_user_or_admin_check (db : DB) (uid : Option Nat) (row : Row) : Bool :=
  match row with
  | .profileRow i _ r => (decide (some i = uid) && decide (r = "user")) || is_admin db uid
  | _ => false

/-- `profiles_delete_admin_only` using clause (rls.sql 79-84): `public.is_admin()`. -/
def profiles_delete_admin_only (db : DB) (uid : Option Nat) (row : Row) : Bool :=
  match row with
  | .profileRow _ _ _ => is_admin db uid
  | _ => false

/-- `products_select_authenticated` using clause (rls.sql 88-93): `true`. -/
def products_select_authenticated (_db : DB) (_uid : Option Nat) (row : Row) : Bool :=
  match row with
  | .productRow _ _ _ _ => true
  | _ => false

/-- `products_insert_admin_only` with-check clause (rls.sql 95-107): the
inlined admin exists-subquery. -/
def products_insert_admin_only (db : DB) (uid : Option Nat) (row : Row) : Bool :=
  match row with
  | .productRow _ _ _ _ => is_admin db uid
  | _ => false

/-- `products_update_admin_only` using and with-check clauses (rls.sql
109-129): both are the inlined admin exists-subquery. -/
def products_update_admin_only (db : DB) (uid : Option Nat) (row : Row) : Bool :=
  match row with
  | .productRow _ _ _ _ => is_admin db uid
  | _ => false

/-- `products_delete_admin_only` using clause (rls.sql 131-143). -/
def products_delete_admin_only (db : DB) (uid : Option Nat) (row : Row) : Bool :=
  match row with
  | .productRow _ _ _ _ => is_admin db uid
  | _ => false

/-- `categories_select_authenticated` using clause (rls.sql 163-168): `true`. -/
def categories_select_authenticated (_db : DB) (_uid : Option Nat) (row : Row) : Bool :=
  match row with
  | .categoryRow _ _ => true
  | _ => false

/-- `categories_insert_admin_only` with-check clause (rls.sql 170-177):
`public.is_admin()`. -/
def categories_insert_admin_only (db : DB) (uid : Option Nat) (row : Row) : Bool :=
  match row with
  | .categoryRow _ _ => is_admin db uid
  | _ => false

/-- `categories_update_admin_only` using and with-check clauses (rls.sql 179-189). -/
def categories_update_admin_only (db : DB) (uid : Option Nat) (row : Row) : Bool :=
  match row with
  | .categoryRow _ _ => is_admin db uid
  | _ => false

/-- `categories_delete_admin_only` using clause (rls.sql 191-198). -/
def categories_delete_admin_only (db : DB) (uid : Option Nat) (row : Row) : Bool :=
  match row with
  | .categoryRow _ _ => is_admin db uid
  | _ => false

/-- `orders_select_own_or_admin` using clause (rls.sql 216-229):
`user_id = auth.uid() or exists (admin subquery)`. -/
def orders_select_own_or_admin (db : DB) (uid : Option Nat) (row : Row) : Bool :=
  match row with
  | .orderRow _ u _ _ _ => decide (some u = uid) || is_admin db uid
  | _ => false

/-- `orders_insert_own_or_admin` with-check clause (rls.sql 231-244). -/
def orders_insert_own_or_admin (db : DB) (uid : Option Nat) (row : Row) : Bool :=
  match row with
  | .orderRow _ u _ _ _ => decide (some u = uid) || is_admin db uid
  | _ => false

/-- `orders_update_admin_only` using and with-check clauses (rls.sql 246-266). -/
def orders_update_admin_only (db : DB) (uid : Option Nat) (row : Row) : Bool :=
  match row with
  | .orderRow _ _ _ _ _ => is_admin db uid
  | _ => false

/-- `orders_delete_admin_only` using clause (rls.sql 268-280). -/
def orders_delete_admin_only (db : DB) (uid : Option Nat) (row : Row) : Bool :=
  match row with
  | .orderRow _ _ _ _ _ => is_admin db uid
  | _ => false

/-- `product_images_select_public` using clause (rls.sql 284-289):
`bucket_id = 'product-images'` — note the hard-coded literal. -/
def product_images_select_public (_db : DB) (_uid : Option Nat) (row : Row) : Bool :=
  match row with
  | .storageRow b _ => decide (b = "product-images")
  | _ => false

/-- `product_images_admin_insert` with-check clause (rls.sql 291-304):
`bucket_id = 'product-images' and exists (admin subquery)`. -/
def product_images_admin_insert (db : DB) (uid : Option Nat) (row : Row) : Bool :=
  match row with
  | .storageRow b _ => decide (b = "product-images") && is_admin db uid
  | _ => false

/-- `product_images_admin_update` using and with-check clauses (rls.sql 306-328). -/
def product_images_admin_update (db : DB) (uid : Option Nat) (row : Row) : Bool :=
  match row with
  | .storageRow b _ => decide (b = "product-images") && is_admin db uid
  | _ => false

/-- `product_images_admin_delete` using clause (rls.sql 330-343). -/
def product_images_admin_delete (db : DB) (uid : Option Nat) (row : Row) : Bool :=
  match row with
  | .storageRow b _ => decide (b = "product-images") && is_admin db uid
  | _ => false

/-- One `create policy` statement: the resource and command it is `for`, the
role set it is `to`, and its `using` / `with check` predicates (`truePred`
when the clause is absent). -/
structure Policy where
  resource : Resource
  cmd : Cmd
  roles : PolicyRole
  usingPred : DB → Option Nat → Row → Bool
  checkPred : DB → Option Nat → Row → Bool

/-- The complete policy set of rls.sql, in source order. -/
def policies : List Policy :=
  [ ⟨.profile, .select, .authenticated, profiles_select_self_or_admin, truePred⟩,
    ⟨.profile, .insert, .authenticated, truePred, profiles_insert_self_user_or_admin⟩,
    ⟨.profile, .update, .authenticated, profiles_update_self_user_or_admin_using,
      profiles_update_self_user_or_admin_check⟩,
    ⟨.profile, .delete, .authenticated, profiles_delete_admin_only, truePred⟩,
    ⟨.product, .select, .authenticated, products_select_authenticated, truePred⟩,
    ⟨.product, .insert, .authenticated, truePred, products_insert_admin_only⟩,
    ⟨.product, .update, .authenticated, products_update_admin_only, products_update_admin_only⟩,
    ⟨.product, .delete, .authenticated, products_delete_admin_only, truePred⟩,
    ⟨.category, .select, .authenticated, categories_select_authenticated, truePred⟩,
    ⟨.category, .insert, .authenticated, truePred, categories_insert_admin_only⟩,
    ⟨.category, .update, .authenticated, categories_update_admin_only,
      categories_update_admin_only⟩,
    ⟨.category, .delete, .authenticated, categories_delete_admin_only, truePred⟩,
    ⟨.order, .select, .authenticated, orders_select_own_or_admin, truePred⟩,
    ⟨.order, .insert, .authenticated, truePred, orders_insert_own_or_admin⟩,
    ⟨.order, .update, .authenticated, orders_update_admin_only, orders_update_admin_only⟩,
    ⟨.order, .delete, .authenticated, orders_delete_admin_only, truePred⟩,
    ⟨.storageObject, .select, .publicRole, product_images_select_public, truePred⟩,
    ⟨.storageObject, .insert, .authenticated, truePred, product_images_admin_insert⟩,
    ⟨.storageObject, .update, .authenticated, product_images_admin_update,
      product_images_admin_update⟩,
    ⟨.storageObject, .delete, .authenticated, product_images_admin_delete, truePred⟩ ]

/-- Whether a policy's `to` clause covers the caller: `to public` covers
everyone, `to authenticated` only non-anonymous callers. -/
def roleApplies (r : PolicyRole) (caller : Option Nat) : Bool :=
  match r with
  | .publicRole => true
  | .authenticated => caller.isSome

/-- A single policy grants the operation when its role set covers the caller,
its `using` clause holds on the existing row and its `with check` clause
holds on the submitted row. -/
def evalPolicy (pol : Policy) (db : DB) (caller : Option Nat) (old new : Row) : Bool :=
  roleApplies pol.roles caller && pol.usingPred db caller old && pol.checkPred db caller new

/-- Row-level security is enabled on every governed resource:
`alter table ... enable row level security` at rls.sql 49 (profiles),
86 (products), 161 (categories), 214 (orders); `storage.objects` has RLS
enabled by the storage platform. -/
def rlsEnabled (res : Resource) : Bool :=
  match res with
  | .profile => true
  | .product => true
  | .category => true
  | .order => true
  | .storageObject => true

/-- The RLS evaluator: with row-level security enabled, a command on a row is
allowed iff some (permissive) policy for that resource and command grants it.
For select and delete, `old` is the accessed row and `new` is irrelevant; for
insert, `new` is the submitted row and `old` irrelevant; for update, `old` is
the existing row and `new` the submitted one. Callers of select, insert and
delete pass the one relevant row in both positions. -/
def can (db : DB) (caller : Option Nat) (res : Resource) (cmd : Cmd) (old new : Row) : Bool :=
  rlsEnabled res &&
    policies.any fun pol =>
      decide (pol.resource = res) && decide (pol.cmd = cmd) && evalPolicy pol db caller old new

/-- The resource/command pairs of rls.sql that are gated on the admin
predicate alone (every one of their policies requires the admin
exists-subquery to hold). -/
def adminOnlyOps : List (Resource × Cmd) :=
  [ (.profile, .delete),
    (.product, .insert), (.product, .update), (.product, .delete),
    (.category, .insert), (.category, .update), (.category, .delete),
    (.order, .update), (.order, .delete),
    (.storageObject, .insert), (.storageObject, .update), (.storageObject, .delete) ]

/-- `public.handle_new_user()` (rls.sql 15-27), the trigger fired after each
insert on `auth.users`: `insert into public.profiles (id, email, role) values
(new.id, new.email, 'user') on conflict (id) do nothing`. The conflict target
is the primary key `id`, so when a profile with this id already exists the
call is a no-op. -/
def handle_new_user (db : DB) (uid : Nat) (email : Option String) : DB :=
  if db.profiles.any (fun p => decide (p.id = uid)) then db
  else { profiles := db.profiles ++ [⟨uid, email, "user"⟩] }

/-- `ensureUserProfile` (App.jsx 12-24):
`supabase.from("profiles").upsert({ id, email }, { onConflict: "id" })` —
an insert that, on an id conflict, updates only the submitted columns
(`id`, `email`); `role` is not in the payload, so an existing row keeps its
role and a fresh row gets the column default `'user'`. -/
def ensureUserProfile (db : DB) (uid : Nat) (email : Option String) : DB :=
  if db.profiles.any (fun p => decide (p.id = uid)) then
    { profiles := db.profiles.map fun p => if p.id = uid then { p with email := email } else p }
  else { profiles := db.profiles ++ [⟨uid, email, "user"⟩] }

/-- Number of profile rows with the given id. -/
def profileCount (db : DB) (uid : Nat) : Nat :=
  (db.profiles.filter fun p => decide (p.id = uid)).length

/-- The role of the (first) profile row with the given id, if any. -/
def roleOf (db : DB) (uid : Nat) : Option String :=
  (db.profiles.find? fun p => decide (p.id = uid)).map Profile.role

/-- `ROLE_USER` (App.jsx 7). -/
def ROLE_USER : String := "user"

/-- `ROLE_ADMIN` (App.jsx 8). -/
def ROLE_ADMIN : String := "admin"

/-- `ROLE_FETCH_TIMEOUT_MS` (App.jsx 9). -/
def ROLE_FETCH_TIMEOUT_MS : Nat := 4000

/-- The outcome of the client's
`supabase.from("profiles").select("role").eq("id", ...).maybeSingle()` call in
`getUserRole`: an error, no matching row (`data` null), or a row whose `role`
column may itself be null. -/
inductive RoleFetch where
  | fetchError
  | fetchNone
  | fetchRow (role : Option String)
deriving DecidableEq, Repr

/-- `getUserRole` (App.jsx 26-41) as a function of the fetch outcome: on
error it returns `ROLE_USER`; when no row exists it (re-)provisions the
profile and returns `ROLE_USER`; otherwise it computes
`String(data.role || ROLE_USER).toLowerCase() === ROLE_ADMIN ? ROLE_ADMIN :
ROLE_USER`, where a null or empty `role` is falsy and replaced by
`ROLE_USER`. -/
def getUserRole (res : RoleFetch) : String :=
  match res with
  | .fetchError => ROLE_USER
  | .fetchNone => ROLE_USER
  | .fetchRow role =>
      let raw := match role with
        | some s => if s = "" then ROLE_USER else s
        | none => ROLE_USER
      if raw.toLower = ROLE_ADMIN then ROLE_ADMIN else ROLE_USER

/-- `getUserRoleWithTimeout` (App.jsx 43-60), a `Promise.race` of
`getUserRole` against a timer: `completion = some (t, r)` means the role
lookup settles with value `r` at time `t` milliseconds, `none` that it never
settles. The race yields the lookup's value when it settles strictly before
the timer fires, and the fallback `ROLE_USER` otherwise. -/
def getUserRoleWithTimeout (completion : Option (Nat × String)) (timeoutMs : Nat) : String :=
  match completion with
  | some (t, r) => if t < timeoutMs then r else ROLE_USER
  | none => ROLE_USER

/-- `PRODUCT_IMAGE_BUCKET` (App.jsx 6):
`import.meta.env.VITE_SUPABASE_PRODUCT_IMAGE_BUCKET || "product-images"` —
the configured environment value when set and non-empty (JavaScript `||`
treats the empty string as falsy), else the literal default. -/
def PRODUCT_IMAGE_BUCKET (env : Option String) : String :=
  match env with
  | some s => if s = "" then "product-images" else s
  | none => "product-images"

/-- A client-side category as held in React state: `normalizeCategory`
produces `{ id, name }` with both strings. -/
structure CCategory where
  id : String
  name : String
deriving DecidableEq, Repr

/-- A client-side product as held in React state; the policies and
`removeCategory` consult only its free-text `category` name. -/
structure CProduct where
  id : String
  name : String
  category : String
deriving DecidableEq, Repr

/-- The slice of React state that `removeCategory` (App.jsx 480-507) reads
and writes: the `categories` and `products` lists and the `adminMessage`,
`selectedCategory` and `newProductCategory` string states. -/
structure CatState where
  categories : List CCategory
  products : List CProduct
  adminMessage : String
  selectedCategory : String
  newProductCategory : String
deriving DecidableEq, Repr

/-- `removeCategory` (App.jsx 480-507) on its state slice (backend delete
call succeeding or absent): find the category by id (no-op when absent); if
any product's `category` equals its name, set the error message and change
nothing else; otherwise drop it from `categories`, reset `selectedCategory`
to "All" and `newProductCategory` to the first remaining category's name (or
"") when they pointed at it, and set the success message. -/
def removeCategory (s : CatState) (categoryId : String) : CatState :=
  match s.categories.find? (fun c => decide (c.id = categoryId)) with
  | none => s
  | some category =>
    if s.products.any (fun p => decide (p.category = category.name)) then
      { s with adminMessage := "Cannot delete a category that is used by existing products." }
    else
      let remainingCategories := s.categories.filter fun c => !decide (c.id = categoryId)
      { categories := remainingCategories
        products := s.products
        adminMessage := "Category removed."
        selectedCategory :=
          if s.selectedCategory = category.name then "All" else s.selectedCategory
        newProductCategory :=
          if s.newProductCategory = category.name then
            ((remainingCategories.head?).map CCategory.name).getD ""
          else s.newProductCategory }

/-- `ORDER_STATUSES` (App.jsx 10). -/
def ORDER_STATUSES : List String :=
  ["Placed", "Processing", "Shipped", "Delivered", "Cancelled"]

/-- A JavaScript value in a numeric field position: a (finite) number, NaN,
null, or undefined (an absent property reads as undefined). -/
inductive JVal where
  | jnum (n : Int)
  | jnan
  | jnull
  | jundef
deriving DecidableEq, Repr

/-- JavaScript `Number(x)` on a `JVal`, with `none` for NaN: numbers map to
themselves, `Number(null)` is 0, and `Number(undefined)` and `Number(NaN)`
are NaN. -/
def toNumber : JVal → Option Int
  | .jnum n => some n
  | .jnan => none
  | .jnull => some 0
  | .jundef => none

/-- JavaScript `Number(x) || 0`: NaN is falsy and becomes 0; 0 is falsy and
stays 0; every other number is kept. -/
def numOr0 (v : JVal) : Int :=
  (toNumber v).getD 0

/-- JavaScript `a ?? b`: `b` exactly when `a` is null or undefined. -/
def coalesce (a b : JVal) : JVal :=
  if a = .jnull ∨ a = .jundef then b else a

/-- Whether a `JVal` is missing (null / undefined) or not a number (NaN). -/
def missingOrNonNumeric (v : JVal) : Bool :=
  match v with
  | .jnum _ => false
  | _ => true

/-- JavaScript `a || b` on optional strings, where the empty string is
falsy. -/
def jsOrStr (a b : Option String) : Option String :=
  match a with
  | some s => if s = "" then b else some s
  | none => b

/-- The raw record `normalizeOrder` receives (a Supabase `orders` row or a
seed-JSON order): `status`, `order_date`, `date` and the joined
`profiles.email` may be absent; `total`, `items_count` and `items` are
arbitrary JavaScript numeric-position values. -/
structure OrderInput where
  id : String
  status : Option String
  order_date : Option String
  date : Option String
  total : JVal
  items_count : JVal
  items : JVal
  user_id : Option Nat
  profiles_email : Option String
deriving DecidableEq, Repr

/-- The normalized order produced by `normalizeOrder`. -/
structure NormalizedOrder where
  id : String
  status : String
  date : String
  total : Int
  items : Int
  userId : Option Nat
  userEmail : String
deriving DecidableEq, Repr

/-- The fallback record passed to `normalizeOrder` (second argument,
default `{}`). -/
structure OrderFallback where
  userId : Option Nat
  userEmail : Option String
deriving DecidableEq, Repr

/-- `normalizeOrder` (App.jsx 85-95). `today` stands for
`new Date().toISOString().slice(0, 10)`. Field by field:
`status` is kept when it is one of `ORDER_STATUSES` and replaced by
"Placed" otherwise (an absent status is not in the list);
`date` is `order.order_date || order.date || today`;
`total` is `Number(order.total) || 0`;
`items` is `Number(order.items_count ?? order.items) || 0`;
`userId` is `order.user_id || fallback.userId || null`;
`userEmail` is `order.profiles?.email || fallback.userEmail || "Unknown"`. -/
def normalizeOrder (o : OrderInput) (fallback : OrderFallback) (today : String) :
    NormalizedOrder :=
  { id := o.id
    status :=
      match o.status with
      | some s => if s ∈ ORDER_STATUSES then s else "Placed"
      | none => "Placed"
    date := (jsOrStr o.order_date o.date).getD today
    total := numOr0 o.total
    items := numOr0 (coalesce o.items_count o.items)
    userId := o.user_id.orElse fun _ => fallback.userId
    userEmail := (jsOrStr o.profiles_email fallback.userEmail).getD "Unknown" }

/-! ### Helper lemmas -/

/-- When no profile row marks the caller as admin, `is_admin` is false — it
reduces to false instead of erroring, the fail-closed behaviour of the
exists-subquery. -/
theorem is_admin_eq_false_of (db : DB) (caller : Option Nat)
    (h : ∀ p ∈ db.profiles, some p.id = caller → p.role ≠ "admin") :
    is_admin db caller = false := by
  cases caller with
  | none => rfl
  | some u =>
    rw [is_admin, List.any_eq_false]
    intro p hp
    simp only [Bool.and_eq_true, decide_eq_true_eq, not_and]
    intro hid hrole
    exact h p hp (by rw [hid]) hrole

/-- Every allowed operation is allowed by some enumerated policy of the
source's policy list: the evaluator has no other allow path. -/
theorem exists_policy_of_can (db : DB) (caller : Option Nat) (res : Resource) (cmd : Cmd)
    (old new : Row) (h : can db caller res cmd old new = true) :
    ∃ pol ∈ policies, pol.resource = res ∧ pol.cmd = cmd ∧
      evalPolicy pol db caller old new = true := by
  simp only [can, Bool.and_eq_true] at h
  obtain ⟨-, h⟩ := h
  rw [List.any_eq_true] at h
  obtain ⟨pol, hmem, hpol⟩ := h
  rw [Bool.and_eq_true, Bool.and_eq_true] at hpol
  refine ⟨pol, hmem, ?_, ?_, hpol.2⟩
  · exact of_decide_eq_true hpol.1.1
  · exact of_decide_eq_true hpol.1.2

/-- `profiles_delete_admin_only` denies every row when the caller is not an
admin. -/
theorem profiles_delete_denies (db : DB) (caller : Option Nat)
    (h : is_admin db caller = false) (row : Row) :
    profiles_delete_admin_only db caller row = false := by
  cases row <;> simp [profiles_delete_admin_only, h]

/-- `products_insert_admin_only` denies every row when the caller is not an
admin. -/
theorem products_insert_denies (db : DB) (caller : Option Nat)
    (h : is_admin db caller = false) (row : Row) :
    products_insert_admin_only db caller row = false := by
  cases row <;> simp [products_insert_admin_only, h]

/-- `products_update_admin_only` denies every row when the caller is not an
admin. -/
theorem products_update_denies (db : DB) (caller : Option Nat)
    (h : is_admin db caller = false) (row : Row) :
    products_update_admin_only db caller row = false := by
  cases row <;> simp [products_update_admin_only, h]

/-- `products_delete_admin_only` denies every row when the caller is not an
admin. -/
theorem products_delete_denies (db : DB) (caller : Option Nat)
    (h : is_admin db caller = false) (row : Row) :
    products_delete_admin_only db caller row = false := by
  cases row <;> simp [products_delete_admin_only, h]

/-- `categories_insert_admin_only` denies every row when the caller is not an
admin. -/
theorem categories_insert_denies (db : DB) (caller : Option Nat)
    (h : is_admin db caller = false) (row : Row) :
    categories_insert_admin_only db caller row = false := by
  cases row <;> simp [categories_insert_admin_only, h]

/-- `categories_update_admin_only` denies every row when the caller is not an
admin. -/
theorem categories_update_denies (db : DB) (caller : Option Nat)
    (h : is_admin db caller = false) (row : Row) :
    categories_update_admin_only db caller row = false := by
  cases row <;> simp [categories_update_admin_only, h]

/-- `categories_delete_admin_only` denies every row when the caller is not an
admin. -/
theorem categories_delete_denies (db : DB) (caller : Option Nat)
    (h : is_admin db caller = false) (row : Row) :
    categories_delete_admin_only db caller row = false := by
  cases row <;> simp [categories_delete_admin_only, h]

/-- `orders_update_admin_only` denies every row when the caller is not an
admin. -/
theorem orders_update_denies (db : DB) (caller : Option Nat)
    (h : is_admin db caller = false) (row : Row) :
    orders_update_admin_only db caller row = false := by
  cases row <;> simp [orders_update_admin_only, h]

/-- `orders_delete_admin_only` denies every row when the caller is not an
admin. -/
theorem orders_delete_denies (db : DB) (caller : Option Nat)
    (h : is_admin db caller = false) (row : Row) :
    orders_delete_admin_only db caller row = false := by
  cases row <;> simp [orders_delete_admin_only, h]

/-- `product_images_admin_insert` denies every row when the caller is not an
admin. -/
theorem product_images_insert_denies (db : DB) (caller : Option Nat)
    (h : is_admin db caller = false) (row : Row) :
    product_images_admin_insert db caller row = false := by
  cases row <;> simp [product_images_admin_insert, h]

/-- `product_images_admin_update` denies every row when the caller is not an
admin. -/
theorem product_images_update_denies (db : DB) (caller : Option Nat)
    (h : is_admin db caller = false) (row : Row) :
    product_images_admin_update db caller row = false := by
  cases row <;> simp [product_images_admin_update, h]

/-- `product_images_admin_delete` denies every row when the caller is not an
admin. -/
theorem product_images_delete_denies (db : DB) (caller : Option Nat)
    (h : is_admin db caller = false) (row : Row) :
    product_images_admin_delete db caller row = false := by
  cases row <;> simp [product_images_admin_delete, h]

/-! ### Claim theorems -/

/-- C1: for every identity `i` whose profile role is `user`, the
`profiles_update_self_user_or_admin` policy denies an update submitting the
row `{id = i, role = 'admin'}` and allows one submitting
`{id = i, role = 'user'}`; the two evaluations differ only in the submitted
row's `role` field, so the decision inspects the submitted row, not just the
caller's stored role. -/
theorem profiles_update_blocks_self_promotion (db : DB) (i : Nat) (e1 e2 e3 : Option String)
    (hrole : ∀ p ∈ db.profiles, p.id = i → p.role = "user") :
    can db (some i) .profile .update (.profileRow i e1 "user") (.profileRow i e2 "admin")
        = false ∧
    can db (some i) .profile .update (.profileRow i e1 "user") (.profileRow i e3 "user")
        = true := by
  have hadmin : is_admin db (some i) = false := by
    apply is_admin_eq_false_of
    intro p hp hid hrole'
    have : p.role = "user" := hrole p hp (by injection hid)
    rw [this] at hrole'
    exact absurd hrole' (by decide)
  constructor <;>
    simp [can, policies, evalPolicy, rlsEnabled, roleApplies,
      profiles_update_self_user_or_admin_using, profiles_update_self_user_or_admin_check,
      hadmin]

/-- C1 witness. -/
theorem profiles_update_blocks_self_promotion_witness :
    can ⟨[⟨5, none, "user"⟩]⟩ (some 5) .profile .update
        (.profileRow 5 none "user") (.profileRow 5 none "admin") = false ∧
    can ⟨[⟨5, none, "user"⟩]⟩ (some 5) .profile .update
        (.profileRow 5 none "user") (.profileRow 5 none "user") = true :=
  profiles_update_blocks_self_promotion ⟨[⟨5, none, "user"⟩]⟩ 5 none none none (by decide)

/-- C2: evaluation is total (every call reduces to ALLOW or DENY — `can` is a
Boolean function, never an exception), and when resolution of the caller's
role fails — the caller is anonymous or owns no profile row — `is_admin`
resolves to false and every admin-gated resource/command pair denies
(fail-closed). The client-side `getUserRole` likewise resolves to the
unprivileged `ROLE_USER` on a fetch error or a missing row. -/
theorem policy_evaluation_fail_closed (db : DB) (caller : Option Nat)
    (hfail : ∀ p ∈ db.profiles, some p.id ≠ caller) :
    is_admin db caller = false ∧
    (∀ rc ∈ adminOnlyOps, ∀ old new : Row, can db caller rc.1 rc.2 old new = false) ∧
    (∀ (res : Resource) (cmd : Cmd) (old new : Row),
      can db caller res cmd old new = true ∨ can db caller res cmd old new = false) ∧
    getUserRole .fetchError = ROLE_USER ∧ getUserRole .fetchNone = ROLE_USER := by
  have hadmin : is_admin db caller = false :=
    is_admin_eq_false_of db caller fun p hp hid _ => hfail p hp hid
  refine ⟨hadmin, ?_, ?_, rfl, rfl⟩
  · intro rc hrc old new
    simp only [adminOnlyOps] at hrc
    fin_cases hrc <;>
      simp [can, policies, evalPolicy, rlsEnabled, roleApplies, truePred,
        profiles_delete_denies db caller hadmin, products_insert_denies db caller hadmin,
        products_update_denies db caller hadmin, products_delete_denies db caller hadmin,
        categories_insert_denies db caller hadmin, categories_update_denies db caller hadmin,
        categories_delete_denies db caller hadmin, orders_update_denies db caller hadmin,
        orders_delete_denies db caller hadmin, product_images_insert_denies db caller hadmin,
        product_images_update_denies db caller hadmin,
        product_images_delete_denies db caller hadmin]
  · intro res cmd old new
    cases h : can db caller res cmd old new with
    | false => exact Or.inr rfl
    | true => exact Or.inl rfl

/-- C2 witness. -/
theorem policy_evaluation_fail_closed_witness :
    is_admin ⟨[⟨3, none, "user"⟩]⟩ (some 7) = false ∧
    can ⟨[⟨3, none, "user"⟩]⟩ (some 7) .category .insert
        (.categoryRow 1 "Bags") (.categoryRow 1 "Bags") = false := by
  have h := policy_evaluation_fail_closed ⟨[⟨3, none, "user"⟩]⟩ (some 7) (by decide)
  exact ⟨h.1, h.2.1 (.category, .insert) (by decide) _ _⟩

/-- C3: default-deny. Row-level security is enabled on every governed
resource, and whenever no enumerated policy for a resource/command pair
grants the operation, `can` evaluates to DENY — there is no implicit allow
path. -/
theorem default_deny (db : DB) (caller : Option Nat) (res : Resource) (cmd : Cmd)
    (old new : Row)
    (hnone : ∀ pol ∈ policies, pol.resource = res → pol.cmd = cmd →
      evalPolicy pol db caller old new = false) :
    can db caller res cmd old new = false ∧
    rlsEnabled .profile = true ∧ rlsEnabled .product = true ∧
    rlsEnabled .category = true ∧ rlsEnabled .order = true ∧
    rlsEnabled .storageObject = true := by
  refine ⟨?_, rfl, rfl, rfl, rfl, rfl⟩
  cases h : can db caller res cmd old new with
  | false => rfl
  | true =>
    obtain ⟨pol, hmem, hres, hcmd, heval⟩ := exists_policy_of_can db caller res cmd old new h
    rw [hnone pol hmem hres hcmd] at heval
    cases heval

/-- C3 witness. -/
theorem default_deny_witness :
    can ⟨[]⟩ none .profile .select (.profileRow 0 none "user") (.profileRow 0 none "user")
        = false ∧ rlsEnabled .profile = true :=
  ⟨(default_deny ⟨[]⟩ none .profile .select _ _ (by decide)).1,
   (default_deny ⟨[]⟩ none .profile .select
     (.profileRow 0 none "user") (.profileRow 0 none "user") (by decide)).2.1⟩

/-- C5: an anonymous caller is denied select on products (the only product
select policy is `to authenticated`), while select on an object in the
`product-images` bucket is allowed by the `to public`
`product_images_select_public` policy. -/
theorem anon_product_denied_image_public (db : DB) (r : Row) (n : String) :
    can db none .product .select r r = false ∧
    can db none .storageObject .select (.storageRow "product-images" n)
        (.storageRow "product-images" n) = true := by
  constructor
  · cases r <;>
      simp [can, policies, evalPolicy, rlsEnabled, roleApplies, truePred,
        products_select_authenticated, product_images_select_public]
  · simp [can, policies, evalPolicy, rlsEnabled, roleApplies, truePred,
      product_images_select_public]

/-- Every storage-object policy clause of rls.sql is false on a row whose
bucket is not the literal `product-images` (and on rows of other tables). -/
theorem storage_preds_false (db : DB) (caller : Option Nat) (r : Row)
    (h : bucketOf r ≠ some "product-images") :
    product_images_select_public db caller r = false ∧
    product_images_admin_insert db caller r = false ∧
    product_images_admin_update db caller r = false ∧
    product_images_admin_delete db caller r = false := by
  cases r with
  | storageRow b n =>
    have hb : ¬ b = "product-images" := by simpa [bucketOf] using h
    simp [product_images_select_public, product_images_admin_insert,
      product_images_admin_update, product_images_admin_delete, hb]
  | profileRow i e ro =>
    simp [product_images_select_public, product_images_admin_insert,
      product_images_admin_update, product_images_admin_delete]
  | productRow i nm c pr =>
    simp [product_images_select_public, product_images_admin_insert,
      product_images_admin_update, product_images_admin_delete]
  | categoryRow i nm =>
    simp [product_images_select_public, product_images_admin_insert,
      product_images_admin_update, product_images_admin_delete]
  | orderRow i u st t ic =>
    simp [product_images_select_public, product_images_admin_insert,
      product_images_admin_update, product_images_admin_delete]

/-- C6: the owner of an order may select it; a distinct identity whose
profile role is `user` may not; an admin may select any order. -/
theorem orders_select_owner_or_admin (db : DB) (i j a oid : Nat) (st : String) (t ic : Int)
    (hne : j ≠ i)
    (hj : ∀ p ∈ db.profiles, p.id = j → p.role = "user")
    (ha : is_admin db (some a) = true) :
    can db (some i) .order .select (.orderRow oid i st t ic) (.orderRow oid i st t ic)
        = true ∧
    can db (some j) .order .select (.orderRow oid i st t ic) (.orderRow oid i st t ic)
        = false ∧
    can db (some a) .order .select (.orderRow oid i st t ic) (.orderRow oid i st t ic)
        = true := by
  have hjadmin : is_admin db (some j) = false := by
    apply is_admin_eq_false_of
    intro p hp hid hrole'
    have : p.role = "user" := hj p hp (by injection hid)
    rw [this] at hrole'
    exact absurd hrole' (by decide)
  have hne' : i ≠ j := Ne.symm hne
  refine ⟨?_, ?_, ?_⟩ <;>
    simp [can, policies, evalPolicy, rlsEnabled, roleApplies, truePred,
      orders_select_own_or_admin, hjadmin, ha, hne']

/-- C6 witness. -/
theorem orders_select_owner_or_admin_witness :
    can ⟨[⟨1, none, "user"⟩, ⟨2, none, "user"⟩, ⟨9, none, "admin"⟩]⟩ (some 1) .order .select
        (.orderRow 0 1 "Placed" 100 2) (.orderRow 0 1 "Placed" 100 2) = true ∧
    can ⟨[⟨1, none, "user"⟩, ⟨2, none, "user"⟩, ⟨9, none, "admin"⟩]⟩ (some 2) .order .select
        (.orderRow 0 1 "Placed" 100 2) (.orderRow 0 1 "Placed" 100 2) = false ∧
    can ⟨[⟨1, none, "user"⟩, ⟨2, none, "user"⟩, ⟨9, none, "admin"⟩]⟩ (some 9) .order .select
        (.orderRow 0 1 "Placed" 100 2) (.orderRow 0 1 "Placed" 100 2) = true :=
  orders_select_owner_or_admin ⟨[⟨1, none, "user"⟩, ⟨2, none, "user"⟩, ⟨9, none, "admin"⟩]⟩
    1 2 9 0 "Placed" 100 2 (by decide) (by decide) (by decide)

/-- C7 counterexample: the claim that the storage policies reference the
configured bucket name fails. With the environment variable set to
`custom-bucket`, the client's configured bucket is `custom-bucket`, yet an
admin's insert of an object into that configured bucket is denied, because
the rls.sql storage policies compare `bucket_id` against the hard-coded
literal `product-images`, not the configured name. -/
theorem storage_bucket_configurable_counterexample :
    PRODUCT_IMAGE_BUCKET (some "custom-bucket") = "custom-bucket" ∧
    is_admin ⟨[⟨1, none, "admin"⟩]⟩ (some 1) = true ∧
    can ⟨[⟨1, none, "admin"⟩]⟩ (some 1) .storageObject .insert
        (.storageRow "custom-bucket" "a.jpg") (.storageRow "custom-bucket" "a.jpg")
        = false := by
  refine ⟨rfl, by decide, by decide⟩

/-- C7 amended: the client-side bucket name is configurable with default
`product-images`, but the storage policies compare against the hard-coded
literal `product-images` (which equals that default, not whatever is
configured); every storage-object operation on a row whose bucket is not the
literal `product-images` is denied — no fallthrough grant. -/
theorem storage_policies_deny_other_buckets (db : DB) (caller : Option Nat) (cmd : Cmd)
    (r : Row) (h : bucketOf r ≠ some "product-images") :
    can db caller .storageObject cmd r r = false ∧
    PRODUCT_IMAGE_BUCKET none = "product-images" := by
  obtain ⟨h1, h2, h3, h4⟩ := storage_preds_false db caller r h
  refine ⟨?_, rfl⟩
  cases cmd <;>
    simp [can, policies, evalPolicy, rlsEnabled, roleApplies, truePred, h1, h2, h3, h4]

/-- C7 amended-claim witness. -/
theorem storage_policies_deny_other_buckets_witness :
    can ⟨[⟨1, none, "admin"⟩]⟩ (some 1) .storageObject .delete
        (.storageRow "other-bucket" "a.jpg") (.storageRow "other-bucket" "a.jpg") = false ∧
    PRODUCT_IMAGE_BUCKET none = "product-images" :=
  storage_policies_deny_other_buckets ⟨[⟨1, none, "admin"⟩]⟩ (some 1) .delete
    (.storageRow "other-bucket" "a.jpg") (by decide)

/-- Updating only the `email` column of the rows with the given id (the
upsert's conflict-update) leaves the role returned by an id lookup
unchanged. -/
theorem find?_role_map_email (l : List Profile) (uid : Nat) (e : Option String) :
    ((l.map fun p => if p.id = uid then { p with email := e } else p).find?
        fun p => decide (p.id = uid)).map Profile.role =
      (l.find? fun p => decide (p.id = uid)).map Profile.role := by
  induction l with
  | nil => rfl
  | cons a t ih =>
    simp only [List.map_cons]
    by_cases ha : a.id = uid
    · rw [if_pos ha, List.find?_cons_of_pos _ (by simp [ha]),
        List.find?_cons_of_pos _ (by simp [ha])]
      rfl
    · rw [if_neg ha, List.find?_cons_of_neg _ (by simp [ha]),
        List.find?_cons_of_neg _ (by simp [ha])]
      exact ih

/-- C4: profile provisioning is idempotent. Starting from a state with no
profile row for the identity, one invocation of the `handle_new_user` hook
creates exactly one row, with role `user`; a second invocation is a no-op
(`on conflict (id) do nothing`); and a later client-side
`ensureUserProfile` upsert (which writes only `id` and `email` on conflict)
leaves the role at its first-created value. -/
theorem profile_provisioning_idempotent (db : DB) (uid : Nat) (e1 e2 e3 : Option String)
    (h0 : profileCount db uid = 0) :
    profileCount (handle_new_user db uid e1) uid = 1 ∧
    roleOf (handle_new_user db uid e1) uid = some "user" ∧
    handle_new_user (handle_new_user db uid e1) uid e2 = handle_new_user db uid e1 ∧
    roleOf (ensureUserProfile (handle_new_user db uid e1) uid e3) uid = some "user" := by
  have hfil : (db.profiles.filter fun p => decide (p.id = uid)) = [] :=
    List.length_eq_zero.mp h0
  have hnone : ∀ p ∈ db.profiles, ¬ p.id = uid := by
    intro p hp
    simpa using List.filter_eq_nil_iff.mp hfil p hp
  have hany : (db.profiles.any fun p => decide (p.id = uid)) = false := by
    rw [List.any_eq_false]
    intro p hp
    simpa using hnone p hp
  have hstep : handle_new_user db uid e1 = ⟨db.profiles ++ [Profile.mk uid e1 "user"]⟩ := by
    simp [handle_new_user, hany]
  have hfind : (db.profiles.find? fun p => decide (p.id = uid)) = none := by
    rw [List.find?_eq_none]
    intro p hp
    simpa using hnone p hp
  have hany2 : ((db.profiles ++ [Profile.mk uid e1 "user"]).any
      fun p => decide (p.id = uid)) = true := by
    rw [List.any_eq_true]
    exact ⟨Profile.mk uid e1 "user", by simp, by simp⟩
  refine ⟨?_, ?_, ?_, ?_⟩
  · rw [hstep]
    show ((db.profiles ++ [Profile.mk uid e1 "user"]).filter fun p => decide (p.id = uid)).length = 1
    rw [List.filter_append, hfil]
    simp
  · rw [hstep]
    show ((db.profiles ++ [Profile.mk uid e1 "user"]).find? fun p => decide (p.id = uid)).map
        Profile.role = some "user"
    rw [List.find?_append, hfind]
    simp [List.find?]
  · rw [hstep]
    show handle_new_user ⟨db.profiles ++ [Profile.mk uid e1 "user"]⟩ uid e2 = _
    simp [handle_new_user, hany2]
  · rw [hstep]
    show roleOf (ensureUserProfile ⟨db.profiles ++ [Profile.mk uid e1 "user"]⟩ uid e3) uid = _
    rw [ensureUserProfile]
    simp only [hany2, if_true]
    show (((db.profiles ++ [Profile.mk uid e1 "user"]).map
        fun p => if p.id = uid then { p with email := e3 } else p).find?
        fun p => decide (p.id = uid)).map Profile.role = some "user"
    rw [find?_role_map_email, List.find?_append, hfind]
    simp [List.find?]

/-- C4 witness. -/
theorem profile_provisioning_idempotent_witness :
    profileCount (handle_new_user ⟨[⟨3, none, "admin"⟩]⟩ 7 (some "a@b.c")) 7 = 1 ∧
    roleOf (handle_new_user ⟨[⟨3, none, "admin"⟩]⟩ 7 (some "a@b.c")) 7 = some "user" ∧
    handle_new_user (handle_new_user ⟨[⟨3, none, "admin"⟩]⟩ 7 (some "a@b.c")) 7 none
        = handle_new_user ⟨[⟨3, none, "admin"⟩]⟩ 7 (some "a@b.c") ∧
    roleOf (ensureUserProfile (handle_new_user ⟨[⟨3, none, "admin"⟩]⟩ 7 (some "a@b.c")) 7
        (some "d@e.f")) 7 = some "user" :=
  profile_provisioning_idempotent ⟨[⟨3, none, "admin"⟩]⟩ 7 (some "a@b.c") none
    (some "d@e.f") (by decide)

/-- C8: when the category with the given id exists and some product
references its name, `removeCategory` only sets the rejection message — the
category list is unchanged and the category remains present; and whenever no
product references the name, what remains is the category list with that
category filtered out (deletion proceeds only in that case). -/
theorem removeCategory_referenced_rejected (s : CatState) (cid : String) (cat : CCategory)
    (hfind : s.categories.find? (fun c => decide (c.id = cid)) = some cat) :
    (s.products.any (fun p => decide (p.category = cat.name)) = true →
      removeCategory s cid =
        { s with adminMessage :=
            "Cannot delete a category that is used by existing products." } ∧
      (removeCategory s cid).categories = s.categories ∧
      cat ∈ (removeCategory s cid).categories) ∧
    (s.products.any (fun p => decide (p.category = cat.name)) = false →
      (removeCategory s cid).categories = s.categories.filter fun c => !decide (c.id = cid))
    := by
  constructor
  · intro hany
    have hres : removeCategory s cid =
        { s with adminMessage :=
            "Cannot delete a category that is used by existing products." } := by
      simp [removeCategory, hfind, hany]
    refine ⟨hres, by rw [hres], ?_⟩
    rw [hres]
    exact List.mem_of_find?_eq_some hfind
  · intro hany
    simp [removeCategory, hfind, hany]

/-- C8 witness. -/
theorem removeCategory_referenced_rejected_witness :
    removeCategory ⟨[⟨"c1", "Sneakers"⟩], [⟨"p1", "Air", "Sneakers"⟩], "", "All", "Sneakers"⟩
        "c1" =
      ⟨[⟨"c1", "Sneakers"⟩], [⟨"p1", "Air", "Sneakers"⟩],
        "Cannot delete a category that is used by existing products.", "All", "Sneakers"⟩ ∧
    CCategory.mk "c1" "Sneakers" ∈
      (removeCategory ⟨[⟨"c1", "Sneakers"⟩], [⟨"p1", "Air", "Sneakers"⟩], "", "All",
        "Sneakers"⟩ "c1").categories := by
  have h := removeCategory_referenced_rejected
    ⟨[⟨"c1", "Sneakers"⟩], [⟨"p1", "Air", "Sneakers"⟩], "", "All", "Sneakers"⟩
    "c1" ⟨"c1", "Sneakers"⟩ (by decide)
  obtain ⟨h1, -, h3⟩ := h.1 (by decide)
  exact ⟨h1, h3⟩

/-- C9: the client-side role resolution races the lookup against a
4000-millisecond timer; whenever the lookup does not settle strictly before
`ROLE_FETCH_TIMEOUT_MS` elapses, `getUserRoleWithTimeout` resolves to the
fallback `ROLE_USER`. This fallback lives in `getUserRoleWithTimeout`, a
view-layer helper of App.jsx; the enforcement-side evaluator `can` and
predicate `is_admin` take no timeout or fallback input at all. -/
theorem role_lookup_timeout_falls_back (completion : Option (Nat × String))
    (h : ∀ t r, completion = some (t, r) → ROLE_FETCH_TIMEOUT_MS ≤ t) :
    getUserRoleWithTimeout completion ROLE_FETCH_TIMEOUT_MS = ROLE_USER ∧
    ROLE_FETCH_TIMEOUT_MS = 4000 ∧ ROLE_USER = "user" := by
  refine ⟨?_, rfl, rfl⟩
  cases completion with
  | none => rfl
  | some tr =>
    obtain ⟨t, r⟩ := tr
    have ht := h t r rfl
    rw [getUserRoleWithTimeout, if_neg (by omega)]

/-- C9 witness. -/
theorem role_lookup_timeout_falls_back_witness :
    getUserRoleWithTimeout (some (4000, "admin")) ROLE_FETCH_TIMEOUT_MS = ROLE_USER :=
  (role_lookup_timeout_falls_back (some (4000, "admin"))
    (by intro t r heq; cases heq; exact Nat.le_refl _)).1

/-- C10: every normalized order has a status drawn from `ORDER_STATUSES` —
the input status when it is one of them, `"Placed"` otherwise (including an
absent status) — and its `total` and `items` are 0 whenever the
corresponding inputs are missing (null/undefined) or not numeric (NaN); the
numeric fields are integers by construction, never NaN. -/
theorem normalizeOrder_valid (o : OrderInput) (fb : OrderFallback) (today : String) :
    (normalizeOrder o fb today).status ∈ ORDER_STATUSES ∧
    (∀ s, o.status = some s → s ∈ ORDER_STATUSES → (normalizeOrder o fb today).status = s) ∧
    (∀ s, o.status = some s → s ∉ ORDER_STATUSES →
      (normalizeOrder o fb today).status = "Placed") ∧
    (o.status = none → (normalizeOrder o fb today).status = "Placed") ∧
    (missingOrNonNumeric o.total = true → (normalizeOrder o fb today).total = 0) ∧
    (missingOrNonNumeric o.items_count = true → missingOrNonNumeric o.items = true →
      (normalizeOrder o fb today).items = 0) := by
  refine ⟨?_, ?_, ?_, ?_, ?_, ?_⟩
  · cases ho : o.status with
    | none => simp [normalizeOrder, ho, ORDER_STATUSES]
    | some s =>
      have hst : (normalizeOrder o fb today).status =
          if s ∈ ORDER_STATUSES then s else "Placed" := by
        simp [normalizeOrder, ho]
      by_cases hs : s ∈ ORDER_STATUSES
      · rw [hst, if_pos hs]; exact hs
      · rw [hst, if_neg hs]; decide
  · intro s hs hmem
    simp [normalizeOrder, hs, hmem]
  · intro s hs hmem
    simp [normalizeOrder, hs, hmem]
  · intro h0
    simp [normalizeOrder, h0]
  · intro h
    cases ht : o.total with
    | jnum n => rw [ht] at h; simp [missingOrNonNumeric] at h
    | jnan => simp [normalizeOrder, numOr0, toNumber, ht]
    | jnull => simp [normalizeOrder, numOr0, toNumber, ht]
    | jundef => simp [normalizeOrder, numOr0, toNumber, ht]
  · intro h1 h2
    cases hc : o.items_count with
    | jnum n => rw [hc] at h1; simp [missingOrNonNumeric] at h1
    | jnan => simp [normalizeOrder, numOr0, toNumber, coalesce, hc]
    | jnull =>
      cases hi : o.items with
      | jnum n => rw [hi] at h2; simp [missingOrNonNumeric] at h2
      | jnan => simp [normalizeOrder, numOr0, toNumber, coalesce, hc, hi]
      | jnull => simp [normalizeOrder, numOr0, toNumber, coalesce, hc, hi]
      | jundef => simp [normalizeOrder, numOr0, toNumber, coalesce, hc, hi]
    | jundef =>
      cases hi : o.items with
      | jnum n => rw [hi] at h2; simp [missingOrNonNumeric] at h2
      | jnan => simp [normalizeOrder, numOr0, toNumber, coalesce, hc, hi]
      | jnull => simp [normalizeOrder, numOr0, toNumber, coalesce, hc, hi]
      | jundef => simp [normalizeOrder, numOr0, toNumber, coalesce, hc, hi]

/-- C10 witness. -/
theorem normalizeOrder_valid_witness :
    (normalizeOrder ⟨"o1", none, none, none, .jnan, .jundef, .jnan, none, none⟩ ⟨none, none⟩
        "2026-10-12").status = "Placed" ∧
    (normalizeOrder ⟨"o1", none, none, none, .jnan, .jundef, .jnan, none, none⟩ ⟨none, none⟩
        "2026-10-12").total = 0 ∧
    (normalizeOrder ⟨"o1", none, none, none, .jnan, .jundef, .jnan, none, none⟩ ⟨none, none⟩
        "2026-10-12").items = 0 :=
  ⟨(normalizeOrder_valid ⟨"o1", none, none, none, .jnan, .jundef, .jnan, none, none⟩
      ⟨none, none⟩ "2026-10-12").2.2.2.1 rfl,
   (normalizeOrder_valid ⟨"o1", none, none, none, .jnan, .jundef, .jnan, none, none⟩
      ⟨none, none⟩ "2026-10-12").2.2.2.2.1 rfl,
   (normalizeOrder_valid ⟨"o1", none, none, none, .jnan, .jundef, .jnan, none, none⟩
      ⟨none, none⟩ "2026-10-12").2.2.2.2.2 rfl rfl⟩

end Reactst
